import Mathlib

/-!
Shallow embedding of `monitor_runpod_serverless_metrics.py`, the single source
file of the runpod-serverless-metrics-prometheus-textfile-exporter repository.

Modelling choices (all driven by the source):

* A metrics sample (`Sample`) is the dictionary found in the `data` list of the
  API response body.  Its eighteen numeric fields are kept abstract in a type
  `V` together with a `ToString V` instance standing for Python's `str`; the
  concrete instantiation `V := Int` (where Lean's `toString` agrees with
  Python's `str` on integers: decimal digits with a leading minus sign) is used
  for concrete evaluations.  The `time` field, a UTC timestamp string
  `"YYYY-MM-DD HH:MM:SS"` parsed by `datetime.strptime` and tagged with
  `timezone.utc`, is modelled directly as the number of seconds since the epoch
  of the parsed instant (`strptime` on this fixed format is injective and
  total on valid inputs, and the script only ever uses the parsed value
  through a difference of seconds).  `datetime.now(timezone.utc)` is modelled
  as an integer number of seconds `current_time` supplied to the functions
  that read the clock; the claims under study only distinguish whole-second
  differences.

* The filesystem state touched by the script is exactly two paths: the output
  file `<textfile_path>/runpod_serverless_metrics.prom` and the temporary file
  obtained by appending the literal suffix `.$$` to it (a fixed Python string,
  not a shell PID).  `FS` records the contents of those two paths as
  `Option (List String)` — `none` when the file does not exist, and otherwise
  the list of its newline-terminated lines (each `f.write` call of the script
  writes exactly one line ending in `'\n'`, so the bytes of the file are
  `String.join (lines.map (fun l => l ++ "\n"))` and the line list determines
  the bytes).  `open(tmp, 'a')` followed by the writes appends the new lines
  to whatever the temporary file held; `os.rename(tmp, dest)` makes the
  temporary file's content the destination content and removes the temporary
  file.

* `httpx.get` is modelled as an oracle `fetch : Endpoint → Response V` fixing
  the upstream world for a run; `r.json()` is modelled by the response's
  optional `data` field (`Response.body`), the only part of the parsed body
  the script reads (`data.get('data', [])`).

* Python exceptions are modelled with `Except String`: a raised exception
  carries its message and propagates; `processEndpoints` returns the final
  filesystem state alongside the outcome, since files already renamed stay on
  disk when a later exception aborts the run.
-/

namespace RunpodExporter

/-- One entry of the `endpoints` list of `config.yml`: `name` (used as the
Prometheus label), `id` (used in the URL path) and the optional `api_key`
(the script checks `'api_key' in endpoint`). -/
structure Endpoint where
  name : String
  id : String
  api_key : Option String
  deriving DecidableEq, Repr

/-- One metrics sample of the API response's `data` list: the eighteen numeric
fields written to the output file (abstract type `V`, rendered by `toString`
as Python's `str` does) and the `time` field as parsed epoch seconds. -/
structure Sample (V : Type) where
  dt_max : V
  dt_min : V
  dt_total : V
  dt_n95 : V
  dt_p70 : V
  dt_p90 : V
  dt_p98 : V
  et_max : V
  et_min : V
  et_total : V
  et_n95 : V
  et_p70 : V
  et_p90 : V
  et_p98 : V
  retried : V
  requests : V
  completed_requests : V
  failed_requests : V
  time : Int
  deriving DecidableEq, Repr

/-- An HTTP response from the metrics API: the status code and the optional
`data` key of the parsed JSON body (`r.json().get('data', ...)`). -/
structure Response (V : Type) where
  status_code : Nat
  body : Option (List (Sample V))
  deriving DecidableEq, Repr

/-- The filesystem state the script touches: the contents (as lists of
newline-terminated lines) of the destination file and of the temporary file
`<dest>.$$`; `none` means the path does not exist. -/
structure FS where
  tmp : Option (List String)
  dest : Option (List String)
  deriving DecidableEq, Repr

/-- The configuration loaded from `config.yml`, as far as
`get_runpod_serverless_metrics` reads it. -/
structure Config where
  textfile_path : String
  endpoints : List Endpoint

/-- `os.path.join(config['textfile_path'], 'runpod_serverless_metrics.prom')`. -/
def output_file_of (config : Config) : String :=
  config.textfile_path ++ "/runpod_serverless_metrics.prom"

variable {V : Type} [ToString V]

/-- `get_api_key` (source lines 40-60): return `endpoint['api_key']`, raising
`Exception('No endpoint metrics api_key configured in config.yml')` when the
key is absent. -/
def get_api_key (endpoint : Endpoint) : Except String String :=
  match endpoint.api_key with
  | some api_key => Except.ok api_key
  | none => Except.error "No endpoint metrics api_key configured in config.yml"

/-- The URL `get_metrics` requests (interval is the literal `'h'`). -/
def metricsUrl (endpoint : Endpoint) : String :=
  "https://api.runpod.ai/v2/" ++ endpoint.id ++ "/metrics/request_ts_v1?interval=h"

/-- `get_metrics` (source lines 63-82): look up the API key — an absent key
raises before anything else — then issue the HTTP GET, modelled by the
`fetch` oracle. -/
def get_metrics (fetch : Endpoint → Response V) (endpoint : Endpoint) :
    Except String (Response V) :=
  match get_api_key endpoint with
  | Except.error msg => Except.error msg
  | Except.ok _ => Except.ok (fetch endpoint)

/-- The HTTP requests `get_metrics` issues, as the list of requested URLs:
`get_api_key` runs first, so when the key is absent no request is made. -/
def get_metrics_requests (endpoint : Endpoint) : List String :=
  match get_api_key endpoint with
  | Except.error _ => []
  | Except.ok _ => [metricsUrl endpoint]

/-- `is_metrics_stale` (source lines 85-102): parse `metrics['time']` as a UTC
instant, subtract it from the current UTC time and report whether the
difference in seconds exceeds 3600. -/
def is_metrics_stale (current_time : Int) (metrics : Sample V) : Bool :=
  let time_diff : Int := current_time - metrics.time
  decide (time_diff > 3600)

/-- One exposition line as the script concatenates it:
`runpod_serverless_<field>{endpoint="<name>"} <value>` (the trailing newline
is implicit in the line-list file model). -/
def metricLine (field endpoint_name value : String) : String :=
  "runpod_serverless_" ++ field ++ "\x7bendpoint=\"" ++ endpoint_name ++ "\"\x7d " ++ value

/-- The lines `write_metrics_data` writes for one sample, in the source's
write order (source lines 122-139): the eighteen numeric fields; the `time`
field is not written. -/
def linesFor (endpoint_name : String) (metrics : Sample V) : List String :=
  [ metricLine "dt_max" endpoint_name (toString metrics.dt_max),
    metricLine "dt_min" endpoint_name (toString metrics.dt_min),
    metricLine "dt_total" endpoint_name (toString metrics.dt_total),
    metricLine "dt_n95" endpoint_name (toString metrics.dt_n95),
    metricLine "dt_p70" endpoint_name (toString metrics.dt_p70),
    metricLine "dt_p90" endpoint_name (toString metrics.dt_p90),
    metricLine "dt_p98" endpoint_name (toString metrics.dt_p98),
    metricLine "et_max" endpoint_name (toString metrics.et_max),
    metricLine "et_min" endpoint_name (toString metrics.et_min),
    metricLine "et_total" endpoint_name (toString metrics.et_total),
    metricLine "et_n95" endpoint_name (toString metrics.et_n95),
    metricLine "et_p70" endpoint_name (toString metrics.et_p70),
    metricLine "et_p90" endpoint_name (toString metrics.et_p90),
    metricLine "et_p98" endpoint_name (toString metrics.et_p98),
    metricLine "retried" endpoint_name (toString metrics.retried),
    metricLine "requests" endpoint_name (toString metrics.requests),
    metricLine "completed_requests" endpoint_name (toString metrics.completed_requests),
    metricLine "failed_requests" endpoint_name (toString metrics.failed_requests) ]

/-- `write_metrics_data` (source lines 105-141): take `data.get('data', [])`;
when non-empty, take its last element; when that sample is not stale, open the
temporary file in append mode, write the eighteen lines, close it, and rename
it onto the destination (so the destination becomes the previous temporary
content — usually nothing — followed by the new lines, and the temporary file
ceases to exist).  Otherwise the filesystem is untouched. -/
def write_metrics_data (endpoint_name : String) (current_time : Int)
    (data : Option (List (Sample V))) (fs : FS) : FS :=
  let endpoint_data := data.getD []
  match endpoint_data.getLast? with
  | none => fs
  | some metrics =>
    if is_metrics_stale current_time metrics then fs
    else
      { tmp := none
        dest := some (fs.tmp.getD [] ++ linesFor endpoint_name metrics) }

/-- The endpoint loop of `get_runpod_serverless_metrics` (source lines
157-166): for each endpoint in configuration order, fetch its metrics (an
absent api_key raises here), then classify the status code — 401 raises the
authentication error naming the endpoint, 200 writes the metrics data, any
other status raises the unexpected-status error naming the code.  A raised
exception stops the loop; the filesystem state reached so far persists. -/
def processEndpoints (fetch : Endpoint → Response V) (current_time : Int) :
    List Endpoint → FS → FS × Except String Unit
  | [], fs => (fs, Except.ok ())
  | endpoint :: rest, fs =>
    match get_metrics fetch endpoint with
    | Except.error msg => (fs, Except.error msg)
    | Except.ok r =>
      if r.status_code = 401 then
        (fs, Except.error ("Authentication failed for " ++ endpoint.name ++
          " endpoint, check your API key"))
      else if r.status_code = 200 then
        processEndpoints fetch current_time rest
          (write_metrics_data endpoint.name current_time r.body fs)
      else
        (fs, Except.error ("Unexpected status code from /health endpoint: " ++
          toString r.status_code))

/-- `get_runpod_serverless_metrics` (source lines 144-166): compute the output
path and run the endpoint loop over `config['endpoints']`. -/
def get_runpod_serverless_metrics (fetch : Endpoint → Response V)
    (current_time : Int) (config : Config) (fs : FS) : FS × Except String Unit :=
  processEndpoints fetch current_time config.endpoints fs

/-- An endpoint's response leads to lines being written exactly when the
response body's `data` list is non-empty and its last sample is fresh. -/
def qualifies (current_time : Int) (body : Option (List (Sample V))) : Bool :=
  match (body.getD []).getLast? with
  | none => false
  | some metrics => ! is_metrics_stale current_time metrics

/-- The lines written for a body that qualifies (empty list otherwise). -/
def linesForData (endpoint_name : String) (body : Option (List (Sample V))) :
    List String :=
  match (body.getD []).getLast? with
  | none => []
  | some metrics => linesFor endpoint_name metrics

/-- The destination-file content after an all-200 run: each endpoint whose
body qualifies replaces the destination with its own lines (last write wins);
endpoints that do not qualify leave it alone. -/
def runDest (fetch : Endpoint → Response V) (current_time : Int)
    (endpoints : List Endpoint) (dest0 : Option (List String)) :
    Option (List String) :=
  endpoints.foldl
    (fun acc e =>
      if qualifies current_time (fetch e).body then
        some (linesForData e.name (fetch e).body)
      else acc)
    dest0

/-! Concrete data for evaluating the model on explicit inputs. -/

/-- A concrete sample with distinct integer field values and time `t`. -/
def sampleAt (t : Int) : Sample Int :=
  { dt_max := 1, dt_min := 2, dt_total := 3, dt_n95 := 4, dt_p70 := 5
    dt_p90 := 6, dt_p98 := 7, et_max := 8, et_min := 9, et_total := 10
    et_n95 := 11, et_p70 := 12, et_p90 := 13, et_p98 := 14, retried := 15
    requests := 16, completed_requests := 17, failed_requests := 18, time := t }

/-- A concrete endpoint with an API key. -/
def epA : Endpoint := { name := "A", id := "id-a", api_key := some "key-a" }

/-- A second concrete endpoint with an API key. -/
def epB : Endpoint := { name := "B", id := "id-b", api_key := some "key-b" }

/-- A concrete endpoint with no API key configured. -/
def epC : Endpoint := { name := "C", id := "id-c", api_key := none }

/-- An empty filesystem: neither file exists. -/
def fs0 : FS := { tmp := none, dest := none }

/-- A filesystem whose destination file holds one pre-existing line. -/
def fsOld : FS := { tmp := none, dest := some ["old"] }

/-- An upstream world answering 401 to everything. -/
def fetch401 : Endpoint → Response Int :=
  fun _ => { status_code := 401, body := none }

/-- An upstream world answering 500 to everything. -/
def fetch500 : Endpoint → Response Int :=
  fun _ => { status_code := 500, body := none }

/-- An upstream world answering 200 with a fresh sample for endpoint `A` and
401 for everything else. -/
def fetchAthen401 : Endpoint → Response Int :=
  fun e =>
    if e.name = "A" then { status_code := 200, body := some [sampleAt 0] }
    else { status_code := 401, body := none }

/-- An upstream world answering 200 with sample data for both endpoints:
two samples for `A`, one for everything else. -/
def fetchBoth200 : Endpoint → Response Int :=
  fun e =>
    if e.name = "A" then { status_code := 200, body := some [sampleAt 3, sampleAt 5] }
    else { status_code := 200, body := some [sampleAt 7] }

/-- An upstream world answering 200 with an empty `data` list. -/
def fetchEmpty : Endpoint → Response Int :=
  fun _ => { status_code := 200, body := some [] }

/-! Helper lemmas shared by the claim theorems. -/

lemma get_metrics_of_isSome (fetch : Endpoint → Response V) (endpoint : Endpoint)
    (h : endpoint.api_key.isSome = true) :
    get_metrics fetch endpoint = Except.ok (fetch endpoint) := by
  cases hk : endpoint.api_key with
  | none => rw [hk] at h; simp at h
  | some k => simp [get_metrics, get_api_key, hk]

lemma write_metrics_data_of_qualifies (endpoint_name : String) (current_time : Int)
    (data : Option (List (Sample V))) (fs : FS)
    (h : qualifies current_time data = true) :
    write_metrics_data endpoint_name current_time data fs =
      { tmp := none
        dest := some (fs.tmp.getD [] ++ linesForData endpoint_name data) } := by
  unfold write_metrics_data
  unfold qualifies at h
  unfold linesForData
  cases hl : (data.getD []).getLast? with
  | none => rw [hl] at h; simp at h
  | some m =>
    rw [hl] at h
    simp only [Bool.not_eq_true'] at h
    simp [hl, h]

lemma write_metrics_data_of_not_qualifies (endpoint_name : String)
    (current_time : Int) (data : Option (List (Sample V))) (fs : FS)
    (h : qualifies current_time data = false) :
    write_metrics_data endpoint_name current_time data fs = fs := by
  unfold write_metrics_data
  unfold qualifies at h
  cases hl : (data.getD []).getLast? with
  | none => simp [hl]
  | some m =>
    rw [hl] at h
    simp only [Bool.not_eq_false'] at h
    simp [hl, h]

lemma write_metrics_data_tmp_none (endpoint_name : String) (current_time : Int)
    (data : Option (List (Sample V))) (fs : FS) (h : fs.tmp = none) :
    (write_metrics_data endpoint_name current_time data fs).tmp = none := by
  by_cases hq : qualifies current_time data
  · rw [write_metrics_data_of_qualifies endpoint_name current_time data fs hq]
  · rw [write_metrics_data_of_not_qualifies endpoint_name current_time data fs
      (by simpa using hq), h]

lemma processEndpoints_tmp_none (fetch : Endpoint → Response V)
    (current_time : Int) :
    ∀ (endpoints : List Endpoint) (fs : FS), fs.tmp = none →
      ((processEndpoints fetch current_time endpoints fs).1).tmp = none := by
  intro endpoints
  induction endpoints with
  | nil => intro fs h; simpa [processEndpoints] using h
  | cons e rest ih =>
    intro fs h
    unfold processEndpoints
    cases hm : get_metrics fetch e with
    | error msg => simpa using h
    | ok r =>
      by_cases h401 : r.status_code = 401
      · simp [h401, h]
      · by_cases h200 : r.status_code = 200
        · simp only [h401, h200, if_true, if_false, if_neg h401, if_pos h200]
          exact ih _ (write_metrics_data_tmp_none _ _ _ _ h)
        · simp [h401, h200, h]

lemma processEndpoints_cons (fetch : Endpoint → Response V) (current_time : Int)
    (endpoint : Endpoint) (rest : List Endpoint) (fs : FS) :
    processEndpoints fetch current_time (endpoint :: rest) fs =
      match get_metrics fetch endpoint with
      | Except.error msg => (fs, Except.error msg)
      | Except.ok r =>
        if r.status_code = 401 then
          (fs, Except.error ("Authentication failed for " ++ endpoint.name ++
            " endpoint, check your API key"))
        else if r.status_code = 200 then
          processEndpoints fetch current_time rest
            (write_metrics_data endpoint.name current_time r.body fs)
        else
          (fs, Except.error ("Unexpected status code from /health endpoint: " ++
            toString r.status_code)) := rfl

lemma runDest_cons (fetch : Endpoint → Response V) (current_time : Int)
    (e : Endpoint) (rest : List Endpoint) (dest0 : Option (List String)) :
    runDest fetch current_time (e :: rest) dest0 =
      runDest fetch current_time rest
        (if qualifies current_time (fetch e).body then
          some (linesForData e.name (fetch e).body)
        else dest0) := rfl

lemma processEndpoints_all200 (fetch : Endpoint → Response V)
    (current_time : Int) :
    ∀ (endpoints : List Endpoint) (fs : FS),
      (∀ e ∈ endpoints, e.api_key.isSome = true ∧ (fetch e).status_code = 200) →
      fs.tmp = none →
      processEndpoints fetch current_time endpoints fs =
        ({ tmp := none, dest := runDest fetch current_time endpoints fs.dest },
          Except.ok ()) := by
  intro endpoints
  induction endpoints with
  | nil =>
    intro fs _ htmp
    cases fs with
    | mk tmp dest => cases htmp; rfl
  | cons e rest ih =>
    intro fs hall htmp
    obtain ⟨hk, h200⟩ := hall e (List.mem_cons_self e rest)
    have hrest : ∀ p ∈ rest, p.api_key.isSome = true ∧ (fetch p).status_code = 200 :=
      fun p hp => hall p (List.mem_cons_of_mem e hp)
    have h401 : ¬ ((fetch e).status_code = 401) := by rw [h200]; decide
    unfold processEndpoints
    rw [get_metrics_of_isSome fetch e hk]
    simp only [if_neg h401, if_pos h200]
    rw [runDest_cons]
    by_cases hq : qualifies current_time (fetch e).body
    · rw [write_metrics_data_of_qualifies e.name current_time (fetch e).body fs hq,
        if_pos hq]
      rw [ih _ hrest rfl]
      simp [htmp]
    · rw [write_metrics_data_of_not_qualifies e.name current_time (fetch e).body fs
        (by simpa using hq), if_neg hq]
      exact ih fs hrest htmp

lemma runDest_getLast (fetch : Endpoint → Response V) (current_time : Int)
    (endpoints : List Endpoint) (dest0 : Option (List String)) (q : Endpoint)
    (hq : (endpoints.filter
        (fun e => qualifies current_time (fetch e).body)).getLast? = some q) :
    runDest fetch current_time endpoints dest0 =
      some (linesForData q.name (fetch q).body) := by
  induction endpoints using List.reverseRecOn with
  | nil => simp at hq
  | append_singleton l e ih =>
    unfold runDest
    rw [List.foldl_append]
    rw [List.filter_append] at hq
    by_cases he : qualifies current_time (fetch e).body
    · have hfe : List.filter (fun x => qualifies current_time (fetch x).body) [e] = [e] := by
        simp [he]
      rw [hfe, List.getLast?_concat] at hq
      have hqe : q = e := by injection hq with h1; exact h1.symm
      subst hqe
      simp [he]
    · have hfe : List.filter (fun x => qualifies current_time (fetch x).body) [e] = [] := by
        simp [he]
      rw [hfe, List.append_nil] at hq
      have h := ih hq
      unfold runDest at h
      simpa [he] using h

/-! The claim theorems. -/

/-- C1 (amended): for every endpoint whose latest sample is fresh and whose
data list is non-empty, the write produces exactly 18 lines for that endpoint
— one per field of the section-3 field list excluding `time`, in that fixed
order — each of the form `runpod_serverless_<field>{endpoint="<name>"} <value>`
with the value written via its natural string representation, appended to the
temporary file which is then renamed onto the destination. -/
theorem claim_C1 (endpoint_name : String) (current_time : Int)
    (data : Option (List (Sample V))) (metrics : Sample V) (fs : FS)
    (hlast : (data.getD []).getLast? = some metrics)
    (hfresh : is_metrics_stale current_time metrics = false) :
    write_metrics_data endpoint_name current_time data fs =
      { tmp := none
        dest := some (fs.tmp.getD [] ++ linesFor endpoint_name metrics) }
    ∧ (linesFor endpoint_name metrics).length = 18
    ∧ linesFor endpoint_name metrics =
      [ metricLine "dt_max" endpoint_name (toString metrics.dt_max),
        metricLine "dt_min" endpoint_name (toString metrics.dt_min),
        metricLine "dt_total" endpoint_name (toString metrics.dt_total),
        metricLine "dt_n95" endpoint_name (toString metrics.dt_n95),
        metricLine "dt_p70" endpoint_name (toString metrics.dt_p70),
        metricLine "dt_p90" endpoint_name (toString metrics.dt_p90),
        metricLine "dt_p98" endpoint_name (toString metrics.dt_p98),
        metricLine "et_max" endpoint_name (toString metrics.et_max),
        metricLine "et_min" endpoint_name (toString metrics.et_min),
        metricLine "et_total" endpoint_name (toString metrics.et_total),
        metricLine "et_n95" endpoint_name (toString metrics.et_n95),
        metricLine "et_p70" endpoint_name (toString metrics.et_p70),
        metricLine "et_p90" endpoint_name (toString metrics.et_p90),
        metricLine "et_p98" endpoint_name (toString metrics.et_p98),
        metricLine "retried" endpoint_name (toString metrics.retried),
        metricLine "requests" endpoint_name (toString metrics.requests),
        metricLine "completed_requests" endpoint_name (toString metrics.completed_requests),
        metricLine "failed_requests" endpoint_name (toString metrics.failed_requests) ] := by
  refine ⟨?_, rfl, rfl⟩
  unfold write_metrics_data
  simp [hlast, hfresh]

/-- Witness for C1: a fresh single-sample data list on an empty filesystem. -/
theorem claim_C1_witness :
    write_metrics_data "A" 0 (some [sampleAt 0]) fs0 =
      { tmp := none
        dest := some (fs0.tmp.getD [] ++ linesFor "A" (sampleAt 0)) }
    ∧ (linesFor "A" (sampleAt 0)).length = 18 := by
  have h := claim_C1 "A" 0 (some [sampleAt 0]) (sampleAt 0) fs0 (by simp) (by decide)
  exact ⟨h.1, h.2.1⟩

/-- Counterexample to C1 as stated: a fresh sample yields 18 output lines for
its endpoint, never 19 — the `time` field of the section-3 list is not
written. -/
theorem claim_C1_counterexample :
    (write_metrics_data "A" 0 (some [sampleAt 0]) fs0).dest =
      some (linesFor "A" (sampleAt 0))
    ∧ (linesFor "A" (sampleAt 0)).length = 18
    ∧ ¬ ((linesFor "A" (sampleAt 0)).length = 19) := by
  refine ⟨by decide, rfl, by decide⟩

/-- C4: a sample is discarded as stale exactly when the difference between the
current UTC time and its parsed `time` field exceeds 3600 seconds; a sample
exactly 3601 seconds old produces no output and leaves the filesystem alone,
and a sample exactly 3599 seconds old is written. -/
theorem claim_C4 (current_time : Int) (metrics : Sample V) :
    (is_metrics_stale current_time metrics = true ↔
      current_time - metrics.time > 3600)
    ∧ (current_time - metrics.time = 3601 →
        ∀ (endpoint_name : String) (ds : List (Sample V)) (fs : FS),
          write_metrics_data endpoint_name current_time (some (ds ++ [metrics])) fs = fs)
    ∧ (current_time - metrics.time = 3599 →
        ∀ (endpoint_name : String) (ds : List (Sample V)) (fs : FS),
          write_metrics_data endpoint_name current_time (some (ds ++ [metrics])) fs =
            { tmp := none
              dest := some (fs.tmp.getD [] ++ linesFor endpoint_name metrics) }) := by
  refine ⟨by simp [is_metrics_stale], ?_, ?_⟩
  · intro h endpoint_name ds fs
    have hst : is_metrics_stale current_time metrics = true := by
      simp [is_metrics_stale, h]
    unfold write_metrics_data
    simp [List.getLast?_concat, hst]
  · intro h endpoint_name ds fs
    have hst : is_metrics_stale current_time metrics = false := by
      simp [is_metrics_stale, h]
    unfold write_metrics_data
    simp [List.getLast?_concat, hst]

/-- Witness for C4: with the sample's time at 1, clock 3602 (3601 seconds old)
discards it and clock 3600 (3599 seconds old) writes it. -/
theorem claim_C4_witness :
    write_metrics_data "A" 3602 (some ([] ++ [sampleAt 1])) fsOld = fsOld
    ∧ write_metrics_data "A" 3600 (some ([] ++ [sampleAt 1])) fsOld =
        { tmp := none
          dest := some (fsOld.tmp.getD [] ++ linesFor "A" (sampleAt 1)) } := by
  have h1 := (claim_C4 3602 (sampleAt 1)).2.1 (by decide) "A" [] fsOld
  have h2 := (claim_C4 3600 (sampleAt 1)).2.2 (by decide) "A" [] fsOld
  exact ⟨h1, h2⟩

/-- C7: a 200 response whose `data` list is empty produces zero output lines
for that endpoint, raises no error, and the run continues with the next
endpoint. -/
theorem claim_C7 (fetch : Endpoint → Response V) (current_time : Int)
    (endpoint : Endpoint) (rest : List Endpoint) (fs : FS)
    (hkey : endpoint.api_key.isSome = true)
    (h200 : (fetch endpoint).status_code = 200)
    (hempty : (fetch endpoint).body = some []) :
    write_metrics_data endpoint.name current_time (fetch endpoint).body fs = fs
    ∧ processEndpoints fetch current_time (endpoint :: rest) fs =
        processEndpoints fetch current_time rest fs := by
  have hw : write_metrics_data endpoint.name current_time (fetch endpoint).body fs
      = fs := by
    rw [hempty]; rfl
  refine ⟨hw, ?_⟩
  have h401 : ¬ ((fetch endpoint).status_code = 401) := by rw [h200]; decide
  rw [processEndpoints_cons, get_metrics_of_isSome fetch endpoint hkey]
  simp [h401, h200, hw]

/-- Witness for C7: one endpoint answering 200 with an empty data list. -/
theorem claim_C7_witness :
    write_metrics_data epA.name 0 (fetchEmpty epA).body fsOld = fsOld
    ∧ processEndpoints fetchEmpty 0 [epA] fsOld =
        processEndpoints fetchEmpty 0 [] fsOld :=
  claim_C7 fetchEmpty 0 epA [] fsOld rfl rfl rfl

/-- C8: an endpoint configuration without an `api_key` entry makes the fetch
raise the missing-credential error before any HTTP request is issued, and the
run aborts there with the filesystem untouched. -/
theorem claim_C8 (fetch : Endpoint → Response V) (current_time : Int)
    (endpoint : Endpoint) (rest : List Endpoint) (fs : FS)
    (hnone : endpoint.api_key = none) :
    get_metrics fetch endpoint =
      Except.error "No endpoint metrics api_key configured in config.yml"
    ∧ get_metrics_requests endpoint = []
    ∧ processEndpoints fetch current_time (endpoint :: rest) fs =
        (fs, Except.error "No endpoint metrics api_key configured in config.yml") := by
  have hg : get_metrics fetch endpoint =
      (Except.error "No endpoint metrics api_key configured in config.yml" :
        Except String (Response V)) := by
    simp [get_metrics, get_api_key, hnone]
  refine ⟨hg, by simp [get_metrics_requests, get_api_key, hnone], ?_⟩
  unfold processEndpoints
  rw [hg]

/-- Witness for C8: the keyless endpoint aborts the run before any request. -/
theorem claim_C8_witness :
    get_metrics fetch401 epC =
      Except.error "No endpoint metrics api_key configured in config.yml"
    ∧ get_metrics_requests epC = []
    ∧ processEndpoints fetch401 0 [epC] fs0 =
        (fs0, Except.error "No endpoint metrics api_key configured in config.yml") :=
  claim_C8 fetch401 0 epC [] fs0 rfl

/-- C9: only the last sample of a non-empty data list is consumed — the
earlier samples never affect the staleness check, the written lines or the
resulting filesystem state. -/
theorem claim_C9 (endpoint_name : String) (current_time : Int)
    (ds : List (Sample V)) (metrics : Sample V) (fs : FS) :
    write_metrics_data endpoint_name current_time (some (ds ++ [metrics])) fs =
      write_metrics_data endpoint_name current_time (some [metrics]) fs := by
  unfold write_metrics_data
  simp [List.getLast?_concat]

/-- C10: a sample whose parsed time lies in the future, or exactly 3600
seconds in the past, is classified fresh and is written. -/
theorem claim_C10 (current_time : Int) (metrics : Sample V)
    (h : current_time - metrics.time < 0 ∨ current_time - metrics.time = 3600) :
    is_metrics_stale current_time metrics = false
    ∧ ∀ (endpoint_name : String) (ds : List (Sample V)) (fs : FS),
        write_metrics_data endpoint_name current_time (some (ds ++ [metrics])) fs =
          { tmp := none
            dest := some (fs.tmp.getD [] ++ linesFor endpoint_name metrics) } := by
  have hnot : ¬ (current_time - metrics.time > 3600) := by
    rcases h with h | h
    · omega
    · omega
  have hst : is_metrics_stale current_time metrics = false := by
    simp [is_metrics_stale, hnot]
  refine ⟨hst, ?_⟩
  intro endpoint_name ds fs
  unfold write_metrics_data
  simp [List.getLast?_concat, hst]

/-- C2 (amended): the rename happens per endpoint, not once after all
endpoints; when an endpoint's fetch fails fatally with a 401 the run aborts
with no rename for that or any later endpoint, so the pre-existing destination
content is unchanged provided no earlier endpoint in the run had a fresh
non-empty sample. -/
theorem claim_C2 (fetch : Endpoint → Response V) (current_time : Int)
    (pre : List Endpoint) (endpoint : Endpoint) (rest : List Endpoint) (fs : FS)
    (hpre : ∀ p ∈ pre, p.api_key.isSome = true ∧ (fetch p).status_code = 200 ∧
      qualifies current_time (fetch p).body = false)
    (hkey : endpoint.api_key.isSome = true)
    (h401 : (fetch endpoint).status_code = 401) :
    processEndpoints fetch current_time (pre ++ endpoint :: rest) fs =
      (fs, Except.error ("Authentication failed for " ++ endpoint.name ++
        " endpoint, check your API key")) := by
  induction pre with
  | nil =>
    rw [List.nil_append, processEndpoints_cons,
      get_metrics_of_isSome fetch endpoint hkey]
    simp [h401]
  | cons p pre ih =>
    obtain ⟨hk, h200, hq⟩ := hpre p (List.mem_cons_self p pre)
    have hrest : ∀ x ∈ pre, x.api_key.isSome = true ∧
        (fetch x).status_code = 200 ∧ qualifies current_time (fetch x).body = false :=
      fun x hx => hpre x (List.mem_cons_of_mem p hx)
    have hp401 : ¬ ((fetch p).status_code = 401) := by rw [h200]; decide
    rw [List.cons_append, processEndpoints_cons, get_metrics_of_isSome fetch p hk]
    simp only [hp401, h200, if_neg hp401, if_pos h200,
      write_metrics_data_of_not_qualifies p.name current_time (fetch p).body fs hq]
    exact ih hrest

/-- Witness for C2: a stale first endpoint writes nothing, so the 401 on the
second endpoint aborts the run with the old destination intact. -/
theorem claim_C2_witness :
    processEndpoints fetchAthen401 7200 [epA, epB] fsOld =
      (fsOld, Except.error ("Authentication failed for " ++ epB.name ++
        " endpoint, check your API key")) :=
  claim_C2 fetchAthen401 7200 [epA] epB [] fsOld (by decide) rfl (by decide)

/-- Counterexample to C2 as stated: when the first endpoint has a fresh
sample and the second answers 401, the run aborts — but the first endpoint
has already renamed its lines over the destination, so the pre-existing
destination content is not preserved. -/
theorem claim_C2_counterexample :
    (processEndpoints fetchAthen401 0 [epA, epB] fsOld).2 =
      Except.error ("Authentication failed for " ++ epB.name ++
        " endpoint, check your API key")
    ∧ fsOld.dest = some ["old"]
    ∧ (processEndpoints fetchAthen401 0 [epA, epB] fsOld).1.dest ≠ some ["old"]
    ∧ (processEndpoints fetchAthen401 0 [epA, epB] fsOld).1.dest =
        some (linesFor "A" (sampleAt 0)) := by
  refine ⟨rfl, rfl, by decide, by decide⟩

/-- C3: after an all-200 run (starting with no leftover temporary file), the
destination holds exactly the lines of the last endpoint in configuration
order that had a non-empty data list with a fresh latest sample, and nothing
from earlier such endpoints: each qualifying endpoint creates the temporary
file anew and immediately renames it over the destination. -/
theorem claim_C3 (fetch : Endpoint → Response V) (current_time : Int)
    (endpoints : List Endpoint) (fs : FS) (q : Endpoint) (metrics : Sample V)
    (hall : ∀ e ∈ endpoints, e.api_key.isSome = true ∧ (fetch e).status_code = 200)
    (htmp : fs.tmp = none)
    (hq : (endpoints.filter
      (fun e => qualifies current_time (fetch e).body)).getLast? = some q)
    (hmet : ((fetch q).body.getD []).getLast? = some metrics) :
    processEndpoints fetch current_time endpoints fs =
      ({ tmp := none, dest := some (linesFor q.name metrics) }, Except.ok ()) := by
  rw [processEndpoints_all200 fetch current_time endpoints fs hall htmp]
  rw [runDest_getLast fetch current_time endpoints fs.dest q hq]
  unfold linesForData
  rw [hmet]

/-- Witness for C3: two fresh all-200 endpoints; only the second endpoint's
lines survive in the destination. -/
theorem claim_C3_witness :
    processEndpoints fetchBoth200 0 [epA, epB] fsOld =
      ({ tmp := none, dest := some (linesFor epB.name (sampleAt 7)) },
        Except.ok ()) :=
  claim_C3 fetchBoth200 0 [epA, epB] fsOld epB (sampleAt 7)
    (by decide) rfl (by decide) (by decide)

/-- C5: once an endpoint's response is obtained, status 200 proceeds to
extraction and the rest of the run, status 401 raises the authentication
error naming the endpoint and aborts the run, and any other status raises the
unexpected-status error naming the status code and aborts the run. -/
theorem claim_C5 (fetch : Endpoint → Response V) (current_time : Int)
    (endpoint : Endpoint) (rest : List Endpoint) (fs : FS)
    (hkey : endpoint.api_key.isSome = true) :
    ((fetch endpoint).status_code = 200 →
      processEndpoints fetch current_time (endpoint :: rest) fs =
        processEndpoints fetch current_time rest
          (write_metrics_data endpoint.name current_time (fetch endpoint).body fs))
    ∧ ((fetch endpoint).status_code = 401 →
      processEndpoints fetch current_time (endpoint :: rest) fs =
        (fs, Except.error ("Authentication failed for " ++ endpoint.name ++
          " endpoint, check your API key")))
    ∧ (¬ ((fetch endpoint).status_code = 200) →
      ¬ ((fetch endpoint).status_code = 401) →
      processEndpoints fetch current_time (endpoint :: rest) fs =
        (fs, Except.error ("Unexpected status code from /health endpoint: " ++
          toString (fetch endpoint).status_code))) := by
  rw [processEndpoints_cons, get_metrics_of_isSome fetch endpoint hkey]
  refine ⟨?_, ?_, ?_⟩
  · intro h200
    have h401 : ¬ ((fetch endpoint).status_code = 401) := by rw [h200]; decide
    simp [h401, h200]
  · intro h401
    simp [h401]
  · intro h200 h401
    simp [h401, h200]

/-- Witness for C5: a 500 response aborts the run naming the status code. -/
theorem claim_C5_witness :
    processEndpoints fetch500 0 [epA] fs0 =
      (fs0, Except.error ("Unexpected status code from /health endpoint: " ++
        toString (fetch500 epA).status_code)) :=
  (claim_C5 fetch500 0 epA [] fs0 rfl).2.2 (by decide) (by decide)

/-- C6: running the pipeline a second time with the same upstream responses,
the same clock and the same configuration, starting from the state the first
run left behind, reproduces that state exactly — in particular the output
file is byte-identical. -/
theorem claim_C6 (fetch : Endpoint → Response V) (current_time : Int)
    (endpoints : List Endpoint) (fs : FS) (htmp : fs.tmp = none) :
    processEndpoints fetch current_time endpoints
        (processEndpoints fetch current_time endpoints fs).1 =
      processEndpoints fetch current_time endpoints fs := by
  induction endpoints generalizing fs with
  | nil => rfl
  | cons e rest ih =>
    cases hk : e.api_key with
    | none =>
      have hstep : ∀ g : FS, processEndpoints fetch current_time (e :: rest) g =
          (g, Except.error "No endpoint metrics api_key configured in config.yml") := by
        intro g
        rw [processEndpoints_cons]
        simp [get_metrics, get_api_key, hk]
      simp [hstep]
    | some k =>
      have hg : get_metrics fetch e = Except.ok (fetch e) := by
        simp [get_metrics, get_api_key, hk]
      by_cases h401 : (fetch e).status_code = 401
      · have hstep : ∀ g : FS, processEndpoints fetch current_time (e :: rest) g =
            (g, Except.error ("Authentication failed for " ++ e.name ++
              " endpoint, check your API key")) := by
          intro g
          rw [processEndpoints_cons, hg]
          simp [h401]
        simp [hstep]
      · by_cases h200 : (fetch e).status_code = 200
        · have hstep : ∀ g : FS, processEndpoints fetch current_time (e :: rest) g =
              processEndpoints fetch current_time rest
                (write_metrics_data e.name current_time (fetch e).body g) := by
            intro g
            rw [processEndpoints_cons, hg]
            simp [h401, h200]
          simp only [hstep]
          by_cases hq : qualifies current_time (fetch e).body
          · have hwc : ∀ g : FS, g.tmp = none →
                write_metrics_data e.name current_time (fetch e).body g =
                  { tmp := none
                    dest := some (linesForData e.name (fetch e).body) } := by
              intro g hg2
              rw [write_metrics_data_of_qualifies e.name current_time (fetch e).body g hq,
                hg2]
              rfl
            rw [hwc fs htmp]
            rw [hwc _ (processEndpoints_tmp_none fetch current_time rest _ rfl)]
          · have hnq : qualifies current_time (fetch e).body = false := by
              simpa using hq
            rw [write_metrics_data_of_not_qualifies e.name current_time (fetch e).body
              fs hnq]
            rw [write_metrics_data_of_not_qualifies e.name current_time (fetch e).body
              _ hnq]
            exact ih fs htmp
        · have hstep : ∀ g : FS, processEndpoints fetch current_time (e :: rest) g =
              (g, Except.error ("Unexpected status code from /health endpoint: " ++
                toString (fetch e).status_code)) := by
            intro g
            rw [processEndpoints_cons, hg]
            simp [h401, h200]
          simp [hstep]

/-- Witness for C6: re-running the two-endpoint all-200 scenario from the
state the first run produced changes nothing. -/
theorem claim_C6_witness :
    processEndpoints fetchBoth200 0 [epA, epB]
        (processEndpoints fetchBoth200 0 [epA, epB] fsOld).1 =
      processEndpoints fetchBoth200 0 [epA, epB] fsOld :=
  claim_C6 fetchBoth200 0 [epA, epB] fsOld rfl

/-- Witness for C10: a sample 100 seconds in the future is fresh and written. -/
theorem claim_C10_witness :
    is_metrics_stale 0 (sampleAt 100) = false
    ∧ write_metrics_data "A" 0 (some ([] ++ [sampleAt 100])) fsOld =
        { tmp := none
          dest := some (fsOld.tmp.getD [] ++ linesFor "A" (sampleAt 100)) } := by
  have h := claim_C10 0 (sampleAt 100) (Or.inl (by decide))
  exact ⟨h.1, h.2 "A" [] fsOld⟩

end RunpodExporter
